import Mathlib

/-!
# Shallow embedding of `compile_latex.py` (DockerLatexCompiler)

The program is a CLI orchestrator around two external tools (a LaTeX engine,
`pdflatex`, and a bibliography tool, `bibtex`).  Everything the program does is
a sequence of external-process invocations plus auxiliary-file cleanup, so we
embed it as pure functions over:

* an `Env` describing the behaviour of the external world at each of the four
  possible `subprocess.run` call sites (`pass1`, `bib`, `pass2`, `pass3`),
  whether a `*.bib` file is present in the document's directory when line 73
  globs for one (`hasBib`), and whether the output PDF exists when line 118
  checks for it (`pdfExists`);
* a filesystem restricted to the document's directory, modelled as the list of
  file names present (`List String`); the orchestrator itself only ever deletes
  files from it (`clean_aux_files`);
* the process working directory, modelled as a `String` threaded explicitly so
  that the `try/finally` restoration of `os.chdir` becomes visible state.

The trace of a run records each `subprocess.run` call site that is reached, in
order, so "the engine is invoked n times" is a statement about the trace.
-/

/-- Exit code and captured output of a completed external process
(`subprocess.CompletedProcess`). `stdout`/`stderr` are the captured texts. -/
structure ProcResult where
  returncode : Int
  stdout : String
  stderr : String
deriving Repr, DecidableEq

/-- Behaviour of one `subprocess.run` call site: the process completed with a
result, or the call raised `subprocess.TimeoutExpired`, or it raised
`FileNotFoundError` (executable missing). -/
inductive RunBehavior where
  | ok : ProcResult → RunBehavior
  | timeout : RunBehavior
  | notFound : RunBehavior
deriving Repr, DecidableEq

/-- The two exception kinds `compile_latex` catches (lines 136-141). -/
inductive Exn where
  | timeoutExpired : Exn
  | fileNotFound : Exn
deriving Repr, DecidableEq

/-- Which external command a reached `subprocess.run` call site invokes. -/
inductive Cmd where
  | engine : Cmd
  | bibtool : Cmd
deriving Repr, DecidableEq

/-- The external world as seen by one `compile_latex` call: the behaviour of
each of the four `subprocess.run` call sites in source order, whether the
`*.bib` glob at line 73 finds a file, and whether the output PDF exists at the
line-118 check. -/
structure Env where
  pass1 : RunBehavior
  bib : RunBehavior
  pass2 : RunBehavior
  pass3 : RunBehavior
  hasBib : Bool
  pdfExists : Bool
deriving Repr, DecidableEq

/-- The auxiliary-extension list of `clean_aux_files` (line 36). -/
def aux_extensions : List String :=
  [".aux", ".log", ".out", ".toc", ".fdb_latexmk", ".fls", ".synctex.gz", ".bbl", ".blg"]

/-- `Path.unlink`: deletes the named file; raises (here: `none`) if it does not
exist. Deletion removes every entry with that name (file names are unique in a
real directory, so this is set-style removal). -/
def unlink (fs : List String) (f : String) : Option (List String) :=
  if fs.contains f then some (fs.filter (fun g => g != f)) else none

/-- One iteration of the `for ext in aux_extensions` loop (lines 38-42):
derive `base ++ ext` and delete it if present. -/
def clean_step (base : String) (fs : List String) (ext : String) : Option (List String) :=
  let f := base ++ ext
  if fs.contains f then unlink fs f else some fs

/-- The loop of `clean_aux_files` over an extension list. -/
def clean_loop (base : String) : List String → List String → Option (List String)
  | [], fs => some fs
  | ext :: rest, fs => (clean_step base fs ext).bind (clean_loop base rest)

/-- `LaTeXCompiler.clean_aux_files` (lines 33-42): best-effort deletion of each
auxiliary file `base ++ ext`. `none` would mean an uncaught exception. -/
def clean_aux_files (base : String) (fs : List String) : Option (List String) :=
  clean_loop base aux_extensions fs

/-- Boolean substring test, used for Python's `pat in line`. -/
def containsSub (s pat : String) : Bool :=
  (List.range (s.length + 1)).any (fun i => (s.data.drop i).take pat.length == pat.data)

/-- Splitting a character list at every occurrence of `c`, keeping empty
pieces — the semantics of Python's `str.split(sep)` for a one-character
separator: `"".split` gives `[""]`, a trailing separator gives a final `""`. -/
def splitOnCharList (c : Char) : List Char → List (List Char)
  | [] => [[]]
  | x :: xs =>
    if x = c then [] :: splitOnCharList c xs
    else
      match splitOnCharList c xs with
      | [] => [[x]]
      | l :: ls => (x :: l) :: ls

/-- Python's `s.split('\n')`. -/
def splitNl (s : String) : List String :=
  (splitOnCharList '\n' s.data).map String.mk

/-- A line the error filter of `_show_latex_errors` keeps (line 152):
it contains `'!'`, `"Error"` or `"Undefined"`. -/
def error_line (line : String) : Bool :=
  line.data.any (fun c => c == '!') || containsSub line "Error" || containsSub line "Undefined"

/-- `LaTeXCompiler._show_latex_errors` (lines 145-154), as the list of lines it
prints: the whole of `stderr` if non-empty, then at most 5 lines of `stdout`
that pass the error filter, each indented two spaces. -/
def show_latex_errors (result : ProcResult) : List String :=
  (if result.stderr != "" then splitNl result.stderr else []) ++
  (if result.stdout != "" then
    (((splitNl result.stdout).filter error_line).take 5).map (fun l => "  " ++ l)
  else [])

/-- What one `compile_latex` call did: the Boolean it returned (`false` also
for the two caught exceptions), the sequence of `subprocess.run` call sites
reached, the diagnostic lines printed via `_show_latex_errors`, the document
directory's files after the orchestrator's own deletions, and the process
working directory after the call. -/
structure Output where
  ok : Bool
  trace : List Cmd
  diag : List String
  fs : List String
  cwd : String
deriving Repr, DecidableEq

/-- The `try` block of `compile_latex` (lines 55-134): the pass sequence,
returning the reached call sites, printed diagnostics, the directory files
after a possible `clean_after` cleanup, and either the returned Boolean or the
exception that escaped to the handlers. -/
def compile_body (env : Env) (clean_after : Bool) (base : String) (fs : List String) :
    List Cmd × List String × List String × Except Exn Bool :=
  match env.pass1 with
  | .timeout => ([.engine], [], fs, .error .timeoutExpired)
  | .notFound => ([.engine], [], fs, .error .fileNotFound)
  | .ok r1 =>
    if r1.returncode != 0 then
      -- line 67-70: error in first pdflatex pass
      ([.engine], show_latex_errors r1, fs, .ok false)
    else
      -- line 73: bib_files = glob("*.bib")
      let finalize : ProcResult → List Cmd → List Cmd × List String × List String × Except Exn Bool :=
        fun final_result trace =>
          -- lines 115-134: PDF check, warnings, optional cleanup
          if final_result.returncode == 0 && env.pdfExists then
            let fs' := if clean_after then (clean_aux_files base fs).getD fs else fs
            (trace, [], fs', .ok true)
          else
            (trace, show_latex_errors final_result, fs, .ok false)
      if env.hasBib then
        match env.bib with
        | .timeout => ([.engine, .bibtool], [], fs, .error .timeoutExpired)
        | .notFound => ([.engine, .bibtool], [], fs, .error .fileNotFound)
        | .ok _rb =>
          -- line 83-85: non-zero bibtex exit only prints a warning
          match env.pass2 with
          | .timeout => ([.engine, .bibtool, .engine], [], fs, .error .timeoutExpired)
          | .notFound => ([.engine, .bibtool, .engine], [], fs, .error .fileNotFound)
          | .ok r2 =>
            if r2.returncode != 0 then
              -- lines 96-99: error in second pdflatex pass
              ([.engine, .bibtool, .engine], show_latex_errors r2, fs, .ok false)
            else
              match env.pass3 with
              | .timeout =>
                ([.engine, .bibtool, .engine, .engine], [], fs, .error .timeoutExpired)
              | .notFound =>
                ([.engine, .bibtool, .engine, .engine], [], fs, .error .fileNotFound)
              | .ok r3 =>
                finalize r3 [.engine, .bibtool, .engine, .engine]
      else
        -- line 111-113: no .bib files, final_result = result1
        finalize r1 [.engine]

/-- `LaTeXCompiler.compile_latex` (lines 44-143). `base` is `tex_file.stem`,
`texDir` its parent directory, `fs0` the directory's files, `cwd0` the process
working directory on entry. The optional pre-clean runs before the `try`
block; `os.chdir(tex_file.parent)` then the `try/finally` restoring
`original_dir`; the exception handlers print and return `False`. -/
def compile_latex (env : Env) (clean_first clean_after : Bool) (base texDir : String)
    (fs0 : List String) (cwd0 : String) : Output :=
  let fs1 := if clean_first then (clean_aux_files base fs0).getD fs0 else fs0
  let original_dir := cwd0
  let _cwd := texDir  -- os.chdir(tex_file.parent), line 53
  let (trace, diag, fs2, res) := compile_body env clean_after base fs1
  let ok := match res with
    | .ok b => b
    | .error _ => false  -- lines 136-141: both handlers return False
  -- finally: os.chdir(original_dir), line 143
  { ok := ok, trace := trace, diag := diag, fs := fs2, cwd := original_dir }

/-- Arguments a triggered recompilation in the watch loop is invoked with
(line 168). -/
structure RecompileCall where
  clean_first : Bool
  clean_after : Bool
deriving Repr, DecidableEq

/-- `LaTeXCompiler.watch_and_compile` (lines 156-172) over a finite list of
polled modification timestamps: `last_modified` is the stored timestamp, `ts`
the successively observed `st_mtime` values; returns the `compile_latex`
invocations the loop makes, in order. -/
def watch_and_compile (clean_after : Bool) (last_modified : Nat) :
    List Nat → List RecompileCall
  | [] => []
  | current :: rest =>
    if last_modified < current then
      { clean_first := false, clean_after := clean_after } ::
        watch_and_compile clean_after current rest
    else
      watch_and_compile clean_after last_modified rest

/-- `LaTeXCompiler.find_main_tex` (lines 19-31) over the target directory's
file list (in filesystem order): prefer `main.tex`, else the first `*.tex`
file, else `none`. -/
def find_main_tex (files : List String) : Option String :=
  if files.contains "main.tex" then some "main.tex"
  else
    match files.filter (fun f => f.endsWith ".tex") with
    | [] => none
    | f :: _ => some f

/-- The parsed CLI arguments (lines 175-185). -/
structure Args where
  directory : String
  clean : Bool
  no_clean_after : Bool
  watch : Bool
deriving Repr, DecidableEq

/-- What one run of `main` (lines 174-204) did: the `sys.exit` status if any
(`none` in watch mode, where the loop runs until interrupted), whether the
watch loop was entered, the pre-watch or single compilation's outcome, and the
recompilations the watch loop made. -/
structure MainResult where
  exitCode : Option Nat
  enteredWatch : Bool
  firstCompile : Option Output
  watchCalls : List RecompileCall
deriving Repr, DecidableEq

/-- `main` (lines 174-204). `dirFiles` is the target directory's file list for
`find_main_tex`; `env`, `fs0`, `cwd0` feed the (first) compilation; `watchT0`
and `watchTs` are the initial stored timestamp and the polled timestamps for
the watch loop. -/
def main_run (args : Args) (dirFiles : List String) (env : Env) (base texDir : String)
    (fs0 : List String) (cwd0 : String) (watchT0 : Nat) (watchTs : List Nat) : MainResult :=
  match find_main_tex dirFiles with
  | none =>
    -- lines 192-194: no .tex file found, sys.exit(1)
    { exitCode := some 1, enteredWatch := false, firstCompile := none, watchCalls := [] }
  | some _tex =>
    if args.watch then
      -- lines 196-200: compile once (result discarded), then watch
      let out := compile_latex env args.clean (!args.no_clean_after) base texDir fs0 cwd0
      let calls := watch_and_compile (!args.no_clean_after) watchT0 watchTs
      { exitCode := none, enteredWatch := true, firstCompile := some out, watchCalls := calls }
    else
      -- lines 202-204: single compilation, sys.exit(0 if success else 1)
      let out := compile_latex env args.clean (!args.no_clean_after) base texDir fs0 cwd0
      { exitCode := some (if out.ok then 0 else 1), enteredWatch := false,
        firstCompile := some out, watchCalls := [] }

/-! ## Helper lemmas -/

lemma mem_of_contains_eq_true {l : List String} {a : String}
    (h : l.contains a = true) : a ∈ l := List.elem_iff.mp h

lemma contains_eq_false_of_not_mem {l : List String} {a : String}
    (h : a ∉ l) : l.contains a = false := by
  cases hc : l.contains a
  · rfl
  · exact absurd (mem_of_contains_eq_true hc) h

lemma clean_loop_spec (base : String) :
    ∀ (exts : List String) (fs : List String),
      ∃ fs', clean_loop base exts fs = some fs' ∧
        (∀ x, x ∈ fs' → x ∈ fs) ∧
        (∀ ext ∈ exts, (base ++ ext) ∉ fs') := by
  intro exts
  induction exts with
  | nil => intro fs; exact ⟨fs, rfl, fun _ h => h, by simp⟩
  | cons ext rest ih =>
    intro fs
    cases h : fs.contains (base ++ ext) with
    | true =>
      obtain ⟨fs', hrun, hsub, hclean⟩ := ih (fs.filter (fun g => g != (base ++ ext)))
      have hm : base ++ ext ∈ fs := mem_of_contains_eq_true h
      refine ⟨fs', ?_, ?_, ?_⟩
      · simp [clean_loop, clean_step, unlink, h, hm, hrun]
      · intro x hx
        exact (List.mem_filter.mp (hsub x hx)).1
      · intro e he
        rcases List.mem_cons.mp he with rfl | he'
        · intro hmem
          have := List.mem_filter.mp (hsub _ hmem)
          simp at this
        · exact hclean e he'
    | false =>
      obtain ⟨fs', hrun, hsub, hclean⟩ := ih fs
      have hm : base ++ ext ∉ fs :=
        fun hmem => Bool.false_ne_true (h ▸ List.elem_iff.mpr hmem)
      refine ⟨fs', ?_, hsub, ?_⟩
      · simp [clean_loop, clean_step, unlink, h, hm, hrun]
      · intro e he
        rcases List.mem_cons.mp he with rfl | he'
        · intro hmem
          have hm : base ++ e ∈ fs := hsub _ hmem
          have hc : fs.contains (base ++ e) = true := List.elem_iff.mpr hm
          rw [h] at hc
          exact Bool.false_ne_true hc
        · exact hclean e he'

lemma clean_loop_fixed (base : String) :
    ∀ (exts : List String) (fs : List String),
      (∀ ext ∈ exts, (base ++ ext) ∉ fs) → clean_loop base exts fs = some fs := by
  intro exts
  induction exts with
  | nil => intro fs _; rfl
  | cons ext rest ih =>
    intro fs habs
    have hni : (base ++ ext) ∉ fs := habs ext (List.mem_cons_self _ _)
    have hc : fs.contains (base ++ ext) = false := contains_eq_false_of_not_mem hni
    simp only [clean_loop, clean_step, hc, Bool.false_eq_true, ite_false, Option.some_bind]
    exact ih fs (fun e he => habs e (List.mem_cons_of_mem _ he))

lemma watch_flags (ca : Bool) :
    ∀ (ts : List Nat) (t0 : Nat) (c : RecompileCall), c ∈ watch_and_compile ca t0 ts →
      c.clean_first = false ∧ c.clean_after = ca := by
  intro ts
  induction ts with
  | nil => intro t0 c h; simp [watch_and_compile] at h
  | cons t rest ih =>
    intro t0 c h
    by_cases hlt : t0 < t
    · simp only [watch_and_compile, hlt, if_true] at h
      rcases List.mem_cons.mp h with rfl | h'
      · exact ⟨rfl, rfl⟩
      · exact ih t c h'
    · simp only [watch_and_compile, hlt, if_false] at h
      exact ih t0 c h

/-! ## The claims -/

/-- C7: `clean_aux_files` is idempotent: it succeeds (no exception), a second
invocation on its result succeeds and changes nothing, and after it no
auxiliary file `base ++ ext` (for `ext` in the fixed auxiliary set) exists. -/
theorem clean_aux_files_idempotent (base : String) (fs : List String) :
    ∃ fs', clean_aux_files base fs = some fs' ∧
      clean_aux_files base fs' = some fs' ∧
      ∀ ext ∈ aux_extensions, (base ++ ext) ∉ fs' := by
  obtain ⟨fs', hrun, _hsub, hclean⟩ := clean_loop_spec base aux_extensions fs
  exact ⟨fs', hrun, clean_loop_fixed base aux_extensions fs' hclean, hclean⟩

/-- C6: every `compile_latex` call leaves the process working directory equal
to its value before the call, whatever the outcome (success, failure, timeout,
missing tool) — the embedding of the `try/finally` at lines 52-143. -/
theorem compile_latex_restores_cwd (env : Env) (clean_first clean_after : Bool)
    (base texDir : String) (fs0 : List String) (cwd0 : String) :
    (compile_latex env clean_first clean_after base texDir fs0 cwd0).cwd = cwd0 := rfl

/-- C9: in the watch loop, a poll observing a timestamp strictly greater than
the stored one triggers exactly one recompilation, invoked with
`clean_first = false` and the configured `clean_after`, and the stored
timestamp becomes the observed value; a poll observing an unchanged timestamp
triggers nothing and leaves the stored timestamp unchanged; every
recompilation the loop ever makes has `clean_first = false` and the
configured `clean_after`. -/
theorem watch_and_compile_triggers (ca : Bool) (last t : Nat) (rest : List Nat)
    (t0 : Nat) (ts : List Nat) :
    (last < t → watch_and_compile ca last (t :: rest) =
      { clean_first := false, clean_after := ca } :: watch_and_compile ca t rest) ∧
    (t = last → watch_and_compile ca last (t :: rest) = watch_and_compile ca last rest) ∧
    (∀ c ∈ watch_and_compile ca t0 ts, c.clean_first = false ∧ c.clean_after = ca) := by
  refine ⟨fun hlt => ?_, fun heq => ?_, fun c hc => watch_flags ca ts t0 c hc⟩
  · simp only [watch_and_compile, hlt, if_true]
  · subst heq
    simp only [watch_and_compile, lt_irrefl, if_false]

/-- Witness for C9 at concrete inputs: stored 0, polls `[1, 1]` — the first
poll (increase) triggers one recompilation with `clean_first = false` and
updates the stored timestamp to 1; the second poll (unchanged) triggers
nothing. -/
theorem watch_and_compile_triggers_witness :
    (watch_and_compile true 0 (1 :: [1]) =
      { clean_first := false, clean_after := true } :: watch_and_compile true 1 [1]) ∧
    (watch_and_compile true 1 (1 :: []) = watch_and_compile true 1 []) ∧
    ({ clean_first := false, clean_after := true } : RecompileCall).clean_first = false := by
  refine ⟨(watch_and_compile_triggers true 0 1 [1] 0 []).1 (by decide),
    (watch_and_compile_triggers true 1 1 [] 0 []).2.1 rfl,
    ((watch_and_compile_triggers true 0 1 [] 0 [1]).2.2
      { clean_first := false, clean_after := true } (by decide)).1⟩

/-- C2: for a directory with a source document but no bibliography database
(`hasBib = false`), `compile_latex` reaches exactly one engine invocation, and
returns `True` iff the output PDF exists and that single pass completed with
exit status 0. -/
theorem compile_no_bib_single_pass (env : Env) (clean_first clean_after : Bool)
    (base texDir : String) (fs0 : List String) (cwd0 : String)
    (hb : env.hasBib = false) :
    (compile_latex env clean_first clean_after base texDir fs0 cwd0).trace = [.engine] ∧
    ((compile_latex env clean_first clean_after base texDir fs0 cwd0).ok = true ↔
      env.pdfExists = true ∧ ∃ r, env.pass1 = .ok r ∧ r.returncode = 0) := by
  obtain ⟨p1, bb, p2, p3, hbb, pdf⟩ := env
  simp only at hb
  subst hb
  cases p1 with
  | timeout => simp [compile_latex, compile_body]
  | notFound => simp [compile_latex, compile_body]
  | ok r1 =>
    by_cases h1 : r1.returncode = 0
    · cases pdf <;> simp [compile_latex, compile_body, h1]
    · simp [compile_latex, compile_body, h1]

/-- Witness for C2: a no-bibliography environment whose single pass exits 0
and produces the PDF. -/
def env_no_bib : Env :=
  { pass1 := .ok ⟨0, "", ""⟩, bib := .ok ⟨0, "", ""⟩, pass2 := .ok ⟨0, "", ""⟩,
    pass3 := .ok ⟨0, "", ""⟩, hasBib := false, pdfExists := true }

/-- Witness for C2 at `env_no_bib`. -/
theorem compile_no_bib_single_pass_witness :
    (compile_latex env_no_bib false true "main" "/doc" [] "/work").trace = [.engine] ∧
    ((compile_latex env_no_bib false true "main" "/doc" [] "/work").ok = true ↔
      env_no_bib.pdfExists = true ∧ ∃ r, env_no_bib.pass1 = .ok r ∧ r.returncode = 0) :=
  compile_no_bib_single_pass env_no_bib false true "main" "/doc" [] "/work" rfl

/-- C3: `compile_latex` returns `True` only when the output PDF exists and the
last-executed engine pass (`pass3` when a bibliography is present, `pass1`
otherwise) completed with exit status 0; a missing PDF or a non-zero final
exit yields `False` even if all earlier passes succeeded. -/
theorem compile_success_requires_pdf_and_zero_exit (env : Env) (clean_first clean_after : Bool)
    (base texDir : String) (fs0 : List String) (cwd0 : String)
    (hok : (compile_latex env clean_first clean_after base texDir fs0 cwd0).ok = true) :
    env.pdfExists = true ∧
    (env.hasBib = true → ∃ r, env.pass3 = .ok r ∧ r.returncode = 0) ∧
    (env.hasBib = false → ∃ r, env.pass1 = .ok r ∧ r.returncode = 0) := by
  obtain ⟨p1, bb, p2, p3, hbb, pdf⟩ := env
  cases p1 with
  | timeout => simp [compile_latex, compile_body] at hok
  | notFound => simp [compile_latex, compile_body] at hok
  | ok r1 =>
    by_cases h1 : r1.returncode = 0
    · cases hbb with
      | false =>
        cases pdf with
        | false => simp [compile_latex, compile_body, h1] at hok
        | true => exact ⟨rfl, by simp, fun _ => ⟨r1, rfl, h1⟩⟩
      | true =>
        cases bb with
        | timeout => simp [compile_latex, compile_body, h1] at hok
        | notFound => simp [compile_latex, compile_body, h1] at hok
        | ok rb =>
          cases p2 with
          | timeout => simp [compile_latex, compile_body, h1] at hok
          | notFound => simp [compile_latex, compile_body, h1] at hok
          | ok r2 =>
            by_cases h2 : r2.returncode = 0
            · cases p3 with
              | timeout => simp [compile_latex, compile_body, h1, h2] at hok
              | notFound => simp [compile_latex, compile_body, h1, h2] at hok
              | ok r3 =>
                by_cases h3 : r3.returncode = 0
                · cases pdf with
                  | false => simp [compile_latex, compile_body, h1, h2, h3] at hok
                  | true => exact ⟨rfl, fun _ => ⟨r3, rfl, h3⟩, by simp⟩
                · simp [compile_latex, compile_body, h1, h2, h3] at hok
            · simp [compile_latex, compile_body, h1, h2] at hok
    · simp [compile_latex, compile_body, h1] at hok

/-- Witness for C3: a successful no-bibliography run. -/
def env_success : Env :=
  { pass1 := .ok ⟨0, "", ""⟩, bib := .ok ⟨0, "", ""⟩, pass2 := .ok ⟨0, "", ""⟩,
    pass3 := .ok ⟨0, "", ""⟩, hasBib := false, pdfExists := true }

/-- Witness for C3 at `env_success`, whose compilation succeeds. -/
theorem compile_success_requires_pdf_and_zero_exit_witness :
    env_success.pdfExists = true ∧
    (env_success.hasBib = true → ∃ r, env_success.pass3 = .ok r ∧ r.returncode = 0) ∧
    (env_success.hasBib = false → ∃ r, env_success.pass1 = .ok r ∧ r.returncode = 0) :=
  compile_success_requires_pdf_and_zero_exit env_success false true "main" "/doc" [] "/work"
    (by decide)

/-- C4: if the first engine pass exits with a non-zero status, `compile_latex`
returns `False` having reached only that one engine invocation — in
particular the bibliography tool is never invoked. -/
theorem compile_first_pass_failure_aborts (env : Env) (clean_first clean_after : Bool)
    (base texDir : String) (fs0 : List String) (cwd0 : String) (r1 : ProcResult)
    (hp : env.pass1 = .ok r1) (hr : r1.returncode ≠ 0) :
    (compile_latex env clean_first clean_after base texDir fs0 cwd0).ok = false ∧
    (compile_latex env clean_first clean_after base texDir fs0 cwd0).trace = [.engine] ∧
    Cmd.bibtool ∉ (compile_latex env clean_first clean_after base texDir fs0 cwd0).trace := by
  obtain ⟨p1, bb, p2, p3, hbb, pdf⟩ := env
  simp only at hp
  subst hp
  simp [compile_latex, compile_body, hr]

/-- Witness for C4: the first pass exits 1 in a directory with a
bibliography database. -/
def env_abort : Env :=
  { pass1 := .ok ⟨1, "", ""⟩, bib := .ok ⟨0, "", ""⟩, pass2 := .ok ⟨0, "", ""⟩,
    pass3 := .ok ⟨0, "", ""⟩, hasBib := true, pdfExists := true }

/-- Witness for C4 at `env_abort`. -/
theorem compile_first_pass_failure_aborts_witness :
    (compile_latex env_abort false true "main" "/doc" [] "/work").ok = false ∧
    (compile_latex env_abort false true "main" "/doc" [] "/work").trace = [.engine] ∧
    Cmd.bibtool ∉ (compile_latex env_abort false true "main" "/doc" [] "/work").trace :=
  compile_first_pass_failure_aborts env_abort false true "main" "/doc" [] "/work"
    ⟨1, "", ""⟩ rfl (by decide)

/-- C5: a non-zero exit from the bibliography tool does not abort
`compile_latex`: the next engine pass is still reached, the fourth invocation
is reached whenever the second engine pass exits 0, and the entire outcome is
unchanged if the bibliography tool's result is replaced by any other completed
result. -/
theorem compile_bib_failure_nonfatal (env : Env) (clean_first clean_after : Bool)
    (base texDir : String) (fs0 : List String) (cwd0 : String) (r1 rb : ProcResult)
    (hbib : env.hasBib = true) (hp1 : env.pass1 = .ok r1) (h1 : r1.returncode = 0)
    (hb : env.bib = .ok rb) (_hrb : rb.returncode ≠ 0) :
    (compile_latex env clean_first clean_after base texDir fs0 cwd0).trace.take 3 =
      [.engine, .bibtool, .engine] ∧
    (∀ r2 : ProcResult, env.pass2 = .ok r2 → r2.returncode = 0 →
      (compile_latex env clean_first clean_after base texDir fs0 cwd0).trace =
        [.engine, .bibtool, .engine, .engine]) ∧
    (∀ rb' : ProcResult,
      compile_latex { env with bib := .ok rb' } clean_first clean_after base texDir fs0 cwd0 =
        compile_latex env clean_first clean_after base texDir fs0 cwd0) := by
  obtain ⟨p1, bb, p2, p3, hbb, pdf⟩ := env
  simp only at hbib hp1 hb
  subst hbib hp1 hb
  refine ⟨?_, ?_, ?_⟩
  · cases p2 with
    | timeout => simp [compile_latex, compile_body, h1]
    | notFound => simp [compile_latex, compile_body, h1]
    | ok r2 =>
      by_cases h2 : r2.returncode = 0
      · cases p3 <;> cases pdf <;>
          simp [compile_latex, compile_body, h1, h2] <;> split_ifs <;> simp
      · simp [compile_latex, compile_body, h1, h2]
  · intro r2 hp2 h2
    simp only at hp2
    subst hp2
    cases p3 <;> cases pdf <;> simp [compile_latex, compile_body, h1, h2] <;> split_ifs <;> simp
  · intro rb'
    cases p2 with
    | timeout => simp [compile_latex, compile_body, h1]
    | notFound => simp [compile_latex, compile_body, h1]
    | ok r2 =>
      by_cases h2 : r2.returncode = 0
      · cases p3 <;> simp [compile_latex, compile_body, h1, h2]
      · simp [compile_latex, compile_body, h1, h2]

/-- Witness for C5: bibliography tool exits 2, everything else nominal. -/
def env_bib_warn : Env :=
  { pass1 := .ok ⟨0, "", ""⟩, bib := .ok ⟨2, "", ""⟩, pass2 := .ok ⟨0, "", ""⟩,
    pass3 := .ok ⟨0, "", ""⟩, hasBib := true, pdfExists := true }

/-- Witness for C5 at `env_bib_warn`: the two later engine passes run and the
outcome equals the one with a zero-exit bibliography tool. -/
theorem compile_bib_failure_nonfatal_witness :
    (compile_latex env_bib_warn false true "main" "/doc" [] "/work").trace.take 3 =
      [.engine, .bibtool, .engine] ∧
    (compile_latex env_bib_warn false true "main" "/doc" [] "/work").trace =
      [.engine, .bibtool, .engine, .engine] ∧
    compile_latex { env_bib_warn with bib := .ok ⟨0, "", ""⟩ } false true "main" "/doc" [] "/work" =
      compile_latex env_bib_warn false true "main" "/doc" [] "/work" :=
  ⟨(compile_bib_failure_nonfatal env_bib_warn false true "main" "/doc" [] "/work"
      ⟨0, "", ""⟩ ⟨2, "", ""⟩ rfl rfl rfl rfl (by decide)).1,
   (compile_bib_failure_nonfatal env_bib_warn false true "main" "/doc" [] "/work"
      ⟨0, "", ""⟩ ⟨2, "", ""⟩ rfl rfl rfl rfl (by decide)).2.1 ⟨0, "", ""⟩ rfl rfl,
   (compile_bib_failure_nonfatal env_bib_warn false true "main" "/doc" [] "/work"
      ⟨0, "", ""⟩ ⟨2, "", ""⟩ rfl rfl rfl rfl (by decide)).2.2 ⟨0, "", ""⟩⟩

/-- Counterexample input for C1: a directory with a bibliography database
whose first engine pass exits 1. -/
def env_first_pass_fails : Env :=
  { pass1 := .ok ⟨1, "", ""⟩, bib := .ok ⟨0, "", ""⟩, pass2 := .ok ⟨0, "", ""⟩,
    pass3 := .ok ⟨0, "", ""⟩, hasBib := true, pdfExists := true }

/-- Counterexample to C1 as stated: with a bibliography database present but
the first engine pass exiting 1, `compile_latex` reaches a single engine
invocation and no bibliography-tool invocation, not the claimed
engine, bib-tool, engine, engine sequence. -/
theorem compile_bib_pass_sequence_counterexample :
    env_first_pass_fails.hasBib = true ∧
    (compile_latex env_first_pass_fails false true "main" "/doc" [] "/work").trace ≠
      [.engine, .bibtool, .engine, .engine] ∧
    (compile_latex env_first_pass_fails false true "main" "/doc" [] "/work").trace.count
      Cmd.engine = 1 ∧
    (compile_latex env_first_pass_fails false true "main" "/doc" [] "/work").trace.count
      Cmd.bibtool = 0 := by
  decide

/-- C1 (amended): for a directory with a bibliography database, provided the
first and second engine passes exit 0 and no invocation raises a timeout or a
missing-executable error, `compile_latex` reaches the engine exactly three
times and the bibliography tool exactly once, in the order engine, bib-tool,
engine, engine. -/
theorem compile_bib_pass_sequence (env : Env) (clean_first clean_after : Bool)
    (base texDir : String) (fs0 : List String) (cwd0 : String) (r1 rb r2 r3 : ProcResult)
    (hbib : env.hasBib = true) (hp1 : env.pass1 = .ok r1) (h1 : r1.returncode = 0)
    (hb : env.bib = .ok rb) (hp2 : env.pass2 = .ok r2) (h2 : r2.returncode = 0)
    (hp3 : env.pass3 = .ok r3) :
    (compile_latex env clean_first clean_after base texDir fs0 cwd0).trace =
      [.engine, .bibtool, .engine, .engine] ∧
    (compile_latex env clean_first clean_after base texDir fs0 cwd0).trace.count Cmd.engine = 3 ∧
    (compile_latex env clean_first clean_after base texDir fs0 cwd0).trace.count
      Cmd.bibtool = 1 := by
  have ht : (compile_latex env clean_first clean_after base texDir fs0 cwd0).trace =
      [.engine, .bibtool, .engine, .engine] := by
    obtain ⟨p1, bb, p2, p3, hbb, pdf⟩ := env
    simp only at hbib hp1 hb hp2 hp3
    subst hbib hp1 hb hp2 hp3
    cases pdf <;> simp [compile_latex, compile_body, h1, h2] <;> split_ifs <;> simp
  refine ⟨ht, ?_, ?_⟩ <;> rw [ht] <;> decide

/-- Witness for amended C1: all passes complete, the bibliography tool exits
2 (benign failure). -/
def env_bib_nominal : Env :=
  { pass1 := .ok ⟨0, "", ""⟩, bib := .ok ⟨2, "", ""⟩, pass2 := .ok ⟨0, "", ""⟩,
    pass3 := .ok ⟨0, "", ""⟩, hasBib := true, pdfExists := true }

/-- Witness for amended C1 at `env_bib_nominal`. -/
theorem compile_bib_pass_sequence_witness :
    (compile_latex env_bib_nominal false true "main" "/doc" [] "/work").trace =
      [.engine, .bibtool, .engine, .engine] ∧
    (compile_latex env_bib_nominal false true "main" "/doc" [] "/work").trace.count
      Cmd.engine = 3 ∧
    (compile_latex env_bib_nominal false true "main" "/doc" [] "/work").trace.count
      Cmd.bibtool = 1 :=
  compile_bib_pass_sequence env_bib_nominal false true "main" "/doc" [] "/work"
    ⟨0, "", ""⟩ ⟨2, "", ""⟩ ⟨0, "", ""⟩ ⟨0, "", ""⟩ rfl rfl rfl rfl rfl rfl rfl

/-- Counterexample input for C8: the failing first pass writes six lines to
standard error, each containing `"Error"`, and nothing to standard output. -/
def env_stderr_diag : Env :=
  { pass1 := .ok ⟨1, "", "Error a\nError b\nError c\nError d\nError e\nError f"⟩,
    bib := .ok ⟨0, "", ""⟩, pass2 := .ok ⟨0, "", ""⟩, pass3 := .ok ⟨0, "", ""⟩,
    hasBib := false, pdfExists := true }

/-- Counterexample to C8 as stated: on this failing pass `compile_latex`
surfaces six diagnostic lines (all via the uncapped verbatim echo of standard
error), exceeding the claimed bound of 5 on diagnostic lines from the pass's
combined output. -/
theorem show_latex_errors_cap_counterexample :
    5 < ((compile_latex env_stderr_diag false true "main" "/doc" [] "/work").diag.countP
      (fun l => error_line l)) := by
  decide

/-- C8 (amended): when an engine pass exits non-zero, `compile_latex` surfaces
the pass's standard error in full and at most 5 diagnostic lines extracted
from the pass's standard output (a diagnostic line contains `"!"`, `"Error"`
or `"Undefined"`); the 5-line cap applies to the extraction from standard
output, so when standard error is empty at most 5 diagnostic lines are
surfaced, each drawn from a standard-output line passing the filter. -/
theorem show_latex_errors_stdout_cap (env : Env) (clean_first clean_after : Bool)
    (base texDir : String) (fs0 : List String) (cwd0 : String) (r1 : ProcResult)
    (hp1 : env.pass1 = .ok r1) (hr : r1.returncode ≠ 0) (hse : r1.stderr = "") :
    (compile_latex env clean_first clean_after base texDir fs0 cwd0).diag =
      show_latex_errors r1 ∧
    (compile_latex env clean_first clean_after base texDir fs0 cwd0).diag.countP
      (fun l => error_line l) ≤ 5 ∧
    ∀ l ∈ (compile_latex env clean_first clean_after base texDir fs0 cwd0).diag,
      ∃ l0 ∈ splitNl r1.stdout, l = "  " ++ l0 ∧ error_line l0 = true := by
  have hd : (compile_latex env clean_first clean_after base texDir fs0 cwd0).diag =
      show_latex_errors r1 := by
    obtain ⟨p1, bb, p2, p3, hbb, pdf⟩ := env
    simp only at hp1
    subst hp1
    simp [compile_latex, compile_body, hr]
  refine ⟨hd, ?_, ?_⟩
  · rw [hd]
    unfold show_latex_errors
    rw [hse]
    simp only [bne_self_eq_false, Bool.false_eq_true, ite_false, List.nil_append]
    by_cases hs : r1.stdout != ""
    · rw [if_pos hs]
      refine le_trans (List.countP_le_length _) ?_
      simp only [List.length_map, List.length_take]
      exact min_le_left _ _
    · rw [if_neg hs]
      simp
  · rw [hd]
    unfold show_latex_errors
    rw [hse]
    simp only [bne_self_eq_false, Bool.false_eq_true, ite_false, List.nil_append]
    intro l hl
    by_cases hs : r1.stdout != ""
    · rw [if_pos hs] at hl
      obtain ⟨l0, hl0, rfl⟩ := List.mem_map.mp hl
      have hmem : l0 ∈ (splitNl r1.stdout).filter error_line := List.mem_of_mem_take hl0
      obtain ⟨hmem', hpl⟩ := List.mem_filter.mp hmem
      exact ⟨l0, hmem', rfl, hpl⟩
    · rw [if_neg hs] at hl
      simp at hl

/-- Witness input for amended C8: a failing pass with empty standard error and
a standard output with two diagnostic lines among four. -/
def env_stdout_diag : Env :=
  { pass1 := .ok ⟨1, "x\n! bad\ny\nError z", ""⟩, bib := .ok ⟨0, "", ""⟩,
    pass2 := .ok ⟨0, "", ""⟩, pass3 := .ok ⟨0, "", ""⟩, hasBib := false, pdfExists := true }

/-- Witness for amended C8 at `env_stdout_diag`. -/
theorem show_latex_errors_stdout_cap_witness :
    (compile_latex env_stdout_diag false true "main" "/doc" [] "/work").diag =
      show_latex_errors ⟨1, "x\n! bad\ny\nError z", ""⟩ ∧
    (compile_latex env_stdout_diag false true "main" "/doc" [] "/work").diag.countP
      (fun l => error_line l) ≤ 5 :=
  ⟨(show_latex_errors_stdout_cap env_stdout_diag false true "main" "/doc" [] "/work"
      ⟨1, "x\n! bad\ny\nError z", ""⟩ rfl (by decide) rfl).1,
   (show_latex_errors_stdout_cap env_stdout_diag false true "main" "/doc" [] "/work"
      ⟨1, "x\n! bad\ny\nError z", ""⟩ rfl (by decide) rfl).2.1⟩

/-- C10: in watch mode, when a source document is found, `main` discards the
outcome of the initial pre-watch compilation: whatever the environment (in
particular when that compilation fails), it enters the watch loop and does not
exit with status 1 on the compilation's account. -/
theorem main_watch_discards_first_compile (args : Args) (dirFiles : List String) (env : Env)
    (base texDir : String) (fs0 : List String) (cwd0 : String) (watchT0 : Nat)
    (watchTs : List Nat) (f : String)
    (hw : args.watch = true) (hf : find_main_tex dirFiles = some f) :
    (main_run args dirFiles env base texDir fs0 cwd0 watchT0 watchTs).exitCode = none ∧
    (main_run args dirFiles env base texDir fs0 cwd0 watchT0 watchTs).enteredWatch = true ∧
    (main_run args dirFiles env base texDir fs0 cwd0 watchT0 watchTs).firstCompile =
      some (compile_latex env args.clean (!args.no_clean_after) base texDir fs0 cwd0) := by
  simp [main_run, hf, hw]

/-- Witness input for C10: an environment whose compilation fails (first pass
exits 1, no PDF). -/
def env_watch_fail : Env :=
  { pass1 := .ok ⟨1, "", ""⟩, bib := .ok ⟨0, "", ""⟩, pass2 := .ok ⟨0, "", ""⟩,
    pass3 := .ok ⟨0, "", ""⟩, hasBib := false, pdfExists := false }

/-- Witness for C10: with watch mode on and a failing first compilation,
`main` produces no exit status and enters the watch loop. -/
theorem main_watch_discards_first_compile_witness :
    (main_run ⟨".", false, false, true⟩ ["main.tex"] env_watch_fail "main" "/doc" [] "/work"
      0 [1]).exitCode = none ∧
    (main_run ⟨".", false, false, true⟩ ["main.tex"] env_watch_fail "main" "/doc" [] "/work"
      0 [1]).enteredWatch = true ∧
    (compile_latex env_watch_fail false true "main" "/doc" [] "/work").ok = false :=
  ⟨(main_watch_discards_first_compile ⟨".", false, false, true⟩ ["main.tex"] env_watch_fail
      "main" "/doc" [] "/work" 0 [1] "main.tex" rfl rfl).1,
   (main_watch_discards_first_compile ⟨".", false, false, true⟩ ["main.tex"] env_watch_fail
      "main" "/doc" [] "/work" 0 [1] "main.tex" rfl rfl).2.1,
   by decide⟩
